import Mathlib

/-!
Verification development for the `lights-tuya` client library (`src/lib.rs`).

The development shallowly embeds the library's pure logic:

* the two unit converters used by `TuyaApi::set_brightness` and
  `TuyaApi::set_color_temperature`, including an exact model of the IEEE-754
  binary64 (`f64`) arithmetic the Rust source performs;
* the wire JSON data model, the serde-derived decoders for `LoginResponse`,
  `ScanResponse` and `SetStateResponse`, and the hand-written serde
  serializer for `TuyaRequest`;
* the response-processing logic of `TuyaApi::new`, `TuyaApi::scan` and
  `TuyaApi::send_state_command` (network transport is abstracted away: each
  function is modelled on the JSON body of the response it receives);
* the access-token persistence pair `AccessToken::write_to` / `read_from`
  and the session constructors `TuyaApi::from_token` / `dump_token`.

Modelling conventions.  JSON objects are association lists assumed to have
distinct keys (serde rejects duplicate fields); serde's alternative
struct-from-sequence representation is not modelled (the vendor responses
are JSON objects).  Machine integers are `Nat`/`Int` with explicit range
checks.  In `TuyaApi::scan` and `TuyaApi::send_state_command` the response
body is deserialized inside the HTTP client (`surf`'s `recv_json`), whose
failure is a `surf::Error`; the `?` operator converts it through
`From<surf::Error> for Error` into `Error::Http`, so a malformed body in
those two calls surfaces as the `Http` error kind.  In `TuyaApi::new` the
body is parsed directly with `serde_json::from_str` and the `?` operator
uses `From<serde_json::Error> for Error`, giving `Error::Deserializing`.
-/

/-! ## Exact binary64 (`f64`) arithmetic

The Rust source computes its unit conversions in `f64`.  We model the
computation exactly: every value produced is a nonnegative dyadic rational
`m / 2^s`, and every operation rounds its exact rational result to the
nearest binary64 value (ties to even), which is IEEE-754 semantics for the
range exercised here (all magnitudes lie in `[2^-16, 2^53)`, so neither
subnormals nor overflow nor exponent-range limits can occur). -/

/-- Fuel-bounded bit length: `bitlen fuel n` equals `⌊log₂ n⌋ + 1` for
`1 ≤ n < 2^fuel`, and `0` for `n = 0`. -/
def bitlen : Nat → Nat → Nat
  | 0, _ => 0
  | fuel + 1, n => if n = 0 then 0 else bitlen fuel (n / 2) + 1

/-- Round the nonnegative rational `a / b` (with `b > 0`; exact for `a = 0`
or `2^-16 ≤ a/b < 2^53`) to the nearest IEEE-754 binary64 value, ties to
even, returned as a dyadic pair `(m, s)` denoting `m / 2^s`.  For `a ≠ 0`,
`bitlen 100 (a * 65536 / b)` equals `⌊log₂ (a/b)⌋ + 17`, so `s` is
`52 - ⌊log₂ (a/b)⌋` and the rounded significand `m` has 53 bits. -/
def roundPos (a b : Nat) : Nat × Nat :=
  if a = 0 then (0, 0) else
  let k16 := bitlen 100 (a * 65536 / b)
  let s := (52 + 17) - k16
  let A := a * 2 ^ s
  let d0 := A / b
  let r := A % b
  let m := if 2 * r < b then d0
           else if b < 2 * r then d0 + 1
           else if d0 % 2 = 0 then d0 else d0 + 1
  (m, s)

/-- Binary64 product of a dyadic value and an exactly representable natural
constant: round `(m / 2^s) * c` to the nearest binary64 value. -/
def fmulDN (d : Nat × Nat) (c : Nat) : Nat × Nat := roundPos (d.1 * c) (2 ^ d.2)

/-- Binary64 sum of an exactly representable natural constant and a dyadic
value: round `c + m / 2^s` to the nearest binary64 value. -/
def faddND (c : Nat) (d : Nat × Nat) : Nat × Nat := roundPos (c * 2 ^ d.2 + d.1) (2 ^ d.2)

/-- Truncation toward zero of a nonnegative dyadic value, the behaviour of a
Rust `as` cast from `f64` to an unsigned integer type on a nonnegative
in-range value. -/
def truncD (d : Nat × Nat) : Nat := d.1 / 2 ^ d.2

/-! ## The unit converters (`set_brightness`, `set_color_temperature`) -/

/-- Brightness conversion performed by `TuyaApi::set_brightness`
(src/lib.rs:426): `((brightness as f64 / 255.) * 100.) as u8`.  The input
ranges over `u8` values (`b ≤ 255`); the division and multiplication are
binary64 operations and the final cast truncates toward zero and saturates
at the `u8` range. -/
def set_brightness_convert (b : Nat) : Nat :=
  min (truncD (fmulDN (roundPos b 255) 100)) 255

/-- Checked `u32` subtraction.  Overflow in Rust integer arithmetic is a
program error (it aborts the program when overflow checks are enabled, as
in debug builds), so the underflowing case is modelled as `none`. -/
def u32_sub? (a b : Nat) : Option Nat := if b ≤ a then some (a - b) else none

/-- Binary64 pipeline of the colour-temperature conversion: for `d` the
clamped offset `temperature.min(6500) - 2700`, compute
`(1000. + ((d as f64) / 3800.) * 9000.) as u32` with a truncating,
saturating cast. -/
def temp_f64 (d : Nat) : Nat :=
  min (truncD (faddND 1000 (fmulDN (roundPos d 3800) 9000))) 4294967295

/-- Colour-temperature conversion performed by
`TuyaApi::set_color_temperature` (src/lib.rs:444):
`(1000. + (((temperature.min(6500) - 2700) as f64) / 3800.) * 9000.) as u32`.
The `u32` subtraction `temperature.min(6500) - 2700` underflows whenever
`temperature < 2700`, a Rust program error (modelled as `none`). -/
def set_color_temperature_convert (k : Nat) : Option Nat :=
  match u32_sub? (min k 6500) 2700 with
  | none => none
  | some d => some (temp_f64 d)

/-- Closed form of what the binary64 temperature pipeline computes: the
exactly truncated linear rescale, except at the two offsets where the double
rounding of `d / 3800` lands just below an exact integer and the truncation
loses one unit. -/
def tempTable (d : Nat) : Nat :=
  1000 + d * 9000 / 3800 - (if d = 2147 ∨ d = 2622 then 1 else 0)

/-- The brightness formula as the specification words it:
`round(b / 255 * 100)`, i.e. `⌊(200 b + 255) / 510⌋`, rounding half up (for
`b ≤ 255` the value `100 b / 255` is never an exact half, so every rounding
mode agrees).  Stated for comparison against `set_brightness_convert`. -/
def spec_round_brightness (b : Nat) : Nat := (b * 200 + 255) / 510

/-- The colour-temperature formula as the specification words it: clamp
above at 6500, rescale linearly to `[1000, 10000]` and truncate the exact
rational result: `1000 + ((min k 6500 - 2700) / 3800) * 9000`.  Stated for
comparison against `set_color_temperature_convert`. -/
def spec_temp_formula (k : Nat) : Nat := 1000 + (min k 6500 - 2700) * 9000 / 3800

/-! ## JSON values and serde-style decoding primitives -/

/-- JSON values.  Numbers are modelled as integers: every numeric field the
library reads or writes is integral (`i32` colour temperature, `u8`
brightness, `u16` colour components, `u32` vendor units, `i64` expiry). -/
inductive Json where
  | null : Json
  | bool : Bool → Json
  | num : Int → Json
  | str : String → Json
  | arr : List Json → Json
  | obj : List (String × Json) → Json

/-- Field lookup in a JSON object (first binding of the key). -/
def getField (fs : List (String × Json)) (k : String) : Option Json :=
  match fs with
  | [] => none
  | (k', v) :: rest => if k' = k then some v else getField rest k

/-- serde deserialization of a `String` field. -/
def asString : Json → Option String
  | .str s => some s
  | _ => none

/-- serde deserialization of a `bool` field. -/
def asBool : Json → Option Bool
  | .bool b => some b
  | _ => none

/-- serde deserialization of an `i32` field (range-checked). -/
def asI32 : Json → Option Int
  | .num n => if -2147483648 ≤ n ∧ n < 2147483648 then some n else none
  | _ => none

/-- serde deserialization of an `Option<String>` field: a missing field and
an explicit `null` both give `None`; any other non-string value is an
error. -/
def asOptString : Option Json → Option (Option String)
  | none => some none
  | some .null => some none
  | some (.str s) => some (some s)
  | some _ => none

/-- serde deserialization of an `Option<i64>` field (range-checked). -/
def asOptI64 : Option Json → Option (Option Int)
  | none => some none
  | some .null => some none
  | some (.num n) =>
      if -9223372036854775808 ≤ n ∧ n < 9223372036854775808 then some (some n) else none
  | some _ => none

/-! ## Response data model (src/lib.rs:114-171, 331-342) -/

/-- Rust struct `LightResponse` (src/lib.rs:142-149). -/
structure LightResponse where
  brightness : String
  color_mode : String
  online : Bool
  state : String
  color_temp : Int
deriving DecidableEq

/-- Derived serde `Deserialize` for `LightResponse`: a JSON object with all
five fields present and well-typed; unknown fields are ignored (no
`deny_unknown_fields`); no field has a default. -/
def LightResponse.decode (j : Json) : Option LightResponse :=
  match j with
  | .obj fs => do
      let b ← getField fs "brightness" >>= asString
      let cm ← getField fs "color_mode" >>= asString
      let onl ← getField fs "online" >>= asBool
      let st ← getField fs "state" >>= asString
      let ct ← getField fs "color_temp" >>= asI32
      pure ⟨b, cm, onl, st, ct⟩
  | _ => none

/-- Rust enum `ScanDevice` (src/lib.rs:151-161), internally tagged by
`dev_type`, with variants `Light` (renamed to tag string `light`) and the
unit variant `Unknown`. -/
inductive ScanDevice where
  | Light (data : LightResponse) (name : String) (id : String)
  | Unknown
deriving DecidableEq

/-- Derived serde `Deserialize` for the internally tagged `ScanDevice`: the
tag string `light` selects the `Light` variant (fields `data`, `name`, `id`
all required); the tag string `Unknown` selects the unit variant `Unknown`
(remaining fields ignored); any other tag value is an unknown-variant
error, because the `Unknown` variant carries no `serde(other)` attribute
and therefore matches only its own literal name. -/
def ScanDevice.decode (j : Json) : Option ScanDevice :=
  match j with
  | .obj fs =>
      match getField fs "dev_type" with
      | some (.str tag) =>
          if tag = "light" then do
            let d ← getField fs "data" >>= LightResponse.decode
            let nm ← getField fs "name" >>= asString
            let i ← getField fs "id" >>= asString
            pure (.Light d nm i)
          else if tag = "Unknown" then some .Unknown
          else none
      | _ => none
  | _ => none

/-- serde deserialization of a `Vec`: element-wise, failing the whole vector
on the first failing element. -/
def decodeVec (f : Json → Option α) : List Json → Option (List α)
  | [] => some []
  | x :: xs => do
      let a ← f x
      let as ← decodeVec f xs
      pure (a :: as)

/-- Rust struct `ScanDevices` (src/lib.rs:163-166). -/
structure ScanDevices where
  devices : List ScanDevice
deriving DecidableEq

/-- Derived serde `Deserialize` for `ScanDevices`. -/
def ScanDevices.decode (j : Json) : Option ScanDevices :=
  match j with
  | .obj fs => do
      let ds ← getField fs "devices"
      match ds with
      | .arr items => do
          let xs ← decodeVec ScanDevice.decode items
          pure ⟨xs⟩
      | _ => none
  | _ => none

/-- Rust struct `ScanResponse` (src/lib.rs:168-171). -/
structure ScanResponse where
  payload : ScanDevices
deriving DecidableEq

/-- Derived serde `Deserialize` for `ScanResponse`. -/
def ScanResponse.decode (j : Json) : Option ScanResponse :=
  match j with
  | .obj fs => do
      let p ← getField fs "payload" >>= ScanDevices.decode
      pure ⟨p⟩
  | _ => none

/-- Rust tuple struct `DeviceId(String)` (src/lib.rs:201-203), a transparent
newtype over the identifier string. -/
structure DeviceId where
  val : String
deriving DecidableEq

/-- Rust struct `Light` (src/lib.rs:173-177). -/
structure Light where
  name : String
  device_id : DeviceId
deriving DecidableEq

/-- Rust method `Light::id` (src/lib.rs:180-182). -/
def Light.id (l : Light) : String := l.device_id.val

/-- Rust enum `Error` (src/lib.rs:90-100), renamed `ApiError` here because
the name `Error` collides with the `LoginResponse::Error` variant under
Lean's name resolution.  `Http` carries the message of the wrapped
`surf::Error`. -/
inductive ApiError where
  | Http (msg : String)
  | Encoding (msg : String)
  | Deserializing (msg : String)
  | Api (msg : String)
deriving DecidableEq

/-- The error produced when `surf`'s `recv_json` fails to deserialize a
response body: the `surf::Error` is converted by `From<surf::Error>` into
`Error::Http` (src/lib.rs:102-106). -/
def recvJsonFailure : ApiError := .Http "recv_json: deserializing response body failed"

/-- Rust struct `TuyaApiTokens` (src/lib.rs:134-140). -/
structure TuyaApiTokens where
  access_token : String
  refresh_token : Option String
  token_type : Option String
  expires_in : Option Int
deriving DecidableEq

/-- Derived serde `Deserialize` for `TuyaApiTokens`: field keys are the
snake-case field names (no rename attribute); only `access_token` is
required, the three `Option` fields default to `None` when missing. -/
def TuyaApiTokens.decode (j : Json) : Option TuyaApiTokens :=
  match j with
  | .obj fs => do
      let tok ← getField fs "access_token" >>= asString
      let rt ← asOptString (getField fs "refresh_token")
      let tt ← asOptString (getField fs "token_type")
      let ei ← asOptI64 (getField fs "expires_in")
      pure ⟨tok, rt, tt, ei⟩
  | _ => none

/-- Rust enum `LoginResponse` (src/lib.rs:114-123), an untagged union of the
success shape (a `TuyaApiTokens`) and the camel-cased error shape. -/
inductive LoginResponse where
  | Success (tokens : TuyaApiTokens)
  | Error (error_msg : String) (response_status : String)
deriving DecidableEq

/-- The error-shape branch of the untagged `LoginResponse` decoder: an
object with string fields `errorMsg` and `responseStatus` (camel-cased by
the rename attribute); other fields are ignored. -/
def LoginResponse.decodeErrorVariant (j : Json) : Option (String × String) :=
  match j with
  | .obj fs =>
      match getField fs "errorMsg", getField fs "responseStatus" with
      | some (.str m), some (.str s) => some (m, s)
      | _, _ => none
  | _ => none

/-- Derived serde `Deserialize` for the untagged `LoginResponse`: variants
are attempted in declaration order, `Success` first, then `Error`. -/
def LoginResponse.decode (j : Json) : Option LoginResponse :=
  match TuyaApiTokens.decode j with
  | some t => some (.Success t)
  | none =>
      match LoginResponse.decodeErrorVariant j with
      | some (m, s) => some (.Error m s)
      | none => none

/-- Rust method `LoginResponse::to_result` (src/lib.rs:125-132). -/
def LoginResponse.to_result : LoginResponse → Except ApiError TuyaApiTokens
  | .Success t => .ok t
  | .Error m _ => .error (.Api m)

/-- The `Error::Deserializing` value produced when `serde_json::from_str`
fails to match either `LoginResponse` variant in `TuyaApi::new`
(src/lib.rs:357, via `From<serde_json::Error>`). -/
def loginDeserFailure : ApiError :=
  .Deserializing "data did not match any variant of untagged enum LoginResponse"

/-- Rust enum `ResponseType` (src/lib.rs:331-337), internally tagged by
`code`, with variants `Success` (renamed to tag string `SUCCESS`) and
`TargetOffline` (tag string `TargetOffline`, no rename).  Any other tag
value is an unknown-variant error. -/
inductive ResponseType where
  | Success
  | TargetOffline
deriving DecidableEq

/-- Derived serde `Deserialize` for the internally tagged `ResponseType`. -/
def ResponseType.decode (j : Json) : Option ResponseType :=
  match j with
  | .obj fs =>
      match getField fs "code" with
      | some (.str tag) =>
          if tag = "SUCCESS" then some .Success
          else if tag = "TargetOffline" then some .TargetOffline
          else none
      | _ => none
  | _ => none

/-- Rust `Debug` formatting of `ResponseType`, as used by
`format!("{:?}", data.header)` in `send_state_command` (src/lib.rs:413):
the variant name with no payload. -/
def ResponseType.debugFmt : ResponseType → String
  | .Success => "Success"
  | .TargetOffline => "TargetOffline"

/-- Rust struct `SetStateResponse` (src/lib.rs:339-342). -/
structure SetStateResponse where
  header : ResponseType
deriving DecidableEq

/-- Derived serde `Deserialize` for `SetStateResponse`. -/
def SetStateResponse.decode (j : Json) : Option SetStateResponse :=
  match j with
  | .obj fs => do
      let h ← getField fs "header" >>= ResponseType.decode
      pure ⟨h⟩
  | _ => none

/-! ## Session, command encoder, persistence (src/lib.rs:86-88, 185-329, 344-463) -/

/-- Rust struct `TuyaApi` (src/lib.rs:86-88). -/
structure TuyaApi where
  tokens : TuyaApiTokens
deriving DecidableEq

/-- Rust tuple struct `AccessToken(String)` (src/lib.rs:185). -/
structure AccessToken where
  val : String
deriving DecidableEq

/-- Rust method `TuyaApiTokens::access_token` (src/lib.rs:325-329), named
`get_access_token` here because the field of the same name already occupies
the Lean name. -/
def TuyaApiTokens.get_access_token (t : TuyaApiTokens) : AccessToken :=
  ⟨t.access_token⟩

/-- Rust enum `State` (src/lib.rs:465-468). -/
inductive State where
  | On
  | Off

/-- Rust struct `HsbColor` (src/lib.rs:470-474); the components are `u16`
values. -/
structure HsbColor where
  brightness : Nat
  saturation : Nat
  hue : Nat

/-- Rust enum `TuyaCommand` (src/lib.rs:205-226). -/
inductive TuyaCommand where
  | Discovery
  | TurnOnOff (device_id : DeviceId) (state : State)
  | SetBrightness (device_id : DeviceId) (brightness : Nat)
  | QueryDevice (device_id : DeviceId)
  | SetColor (device_id : DeviceId) (color : HsbColor)
  | SetColorTemperature (device_id : DeviceId) (temperature : Nat)

/-- Rust struct `TuyaRequest` (src/lib.rs:228-231): a command plus the
access token; the serializer below cannot be invoked without both. -/
structure TuyaRequest where
  command : TuyaCommand
  access_token : AccessToken

/-- The hand-written `impl Serialize for TuyaRequest` (src/lib.rs:247-323):
the command is matched to a namespace, a command name, an optional device
id and an optional extra payload pair; the emitted request is
`RawRequest \x7b header: RawHeader \x7b payloadVersion: 1, namespace, name \x7d,
payload \x7d` where the payload object holds `accessToken`, then `devId` when
present, then the extra pair when present.  This function is total.  Field
order inside objects is irrelevant to the properties proved here
(`serde_json::Value::Object` stores fields sorted by key). -/
def TuyaRequest.serialize (r : TuyaRequest) : Json :=
  let parts : String × String × Option DeviceId × Option (String × Json) :=
    match r.command with
    | .Discovery => ("discovery", "Discovery", none, none)
    | .TurnOnOff d s =>
        ("control", "turnOnOff", some d,
          some ("value", .str (match s with | .On => "1" | .Off => "0")))
    | .SetBrightness d b =>
        ("control", "brightnessSet", some d, some ("value", .num b))
    | .QueryDevice d => ("query", "QueryDevice", some d, none)
    | .SetColor d c =>
        ("control", "colorSet", some d,
          some ("color", .obj [("hue", .num c.hue), ("saturation", .num c.saturation),
            ("brightness", .num c.brightness)]))
    | .SetColorTemperature d t =>
        ("control", "colorTemperatureSet", some d, some ("value", .num t))
  match parts with
  | (ns, nm, devId, value) =>
      .obj [("header", .obj [("payloadVersion", .num 1), ("namespace", .str ns),
              ("name", .str nm)]),
            ("payload", .obj ([("accessToken", .str r.access_token.val)] ++
              (devId.map fun d => ("devId", Json.str d.val)).toList ++ value.toList))]

/-- Rust method `TuyaApi::from_token` (src/lib.rs:363-372). -/
def TuyaApi.from_token (t : AccessToken) : TuyaApi :=
  ⟨⟨t.val, none, none, none⟩⟩

/-- Rust method `TuyaApi::dump_token` (src/lib.rs:360-362). -/
def TuyaApi.dump_token (a : TuyaApi) : AccessToken :=
  a.tokens.get_access_token

/-- The wire request a session builds for a command, as done identically in
`TuyaApi::scan`, `TuyaApi::send_state_command` and `TuyaApi::query`:
`TuyaRequest \x7b command, access_token: self.tokens.access_token() \x7d`
serialized to JSON. -/
def TuyaApi.build_request (a : TuyaApi) (cmd : TuyaCommand) : Json :=
  TuyaRequest.serialize ⟨cmd, a.tokens.get_access_token⟩

/-- Response-body processing of `TuyaApi::scan` (src/lib.rs:373-399): decode
the body as `ScanResponse` (inside `recv_json`, so failure surfaces as the
`Http` error kind), then keep the `Light` records, in order, as `Light`
values built from each record's `name` and `id`. -/
def TuyaApi.scan_decode (body : Json) : Except ApiError (List Light) :=
  match ScanResponse.decode body with
  | none => .error recvJsonFailure
  | some r => .ok (r.payload.devices.filterMap fun item =>
      match item with
      | .Light _ nm i => some ⟨nm, ⟨i⟩⟩
      | .Unknown => none)

/-- Response-body processing of `TuyaApi::send_state_command`
(src/lib.rs:400-415): decode the body as `SetStateResponse` (inside
`recv_json`, so failure surfaces as the `Http` error kind); a `Success`
header maps to `Ok(())`, any other decoded header to
`Err(Error::Api(format!("{:?}", header)))`. -/
def TuyaApi.send_state_command_decode (body : Json) : Except ApiError Unit :=
  match SetStateResponse.decode body with
  | none => .error recvJsonFailure
  | some r =>
      match r.header with
      | .Success => .ok ()
      | h => .error (.Api h.debugFmt)

/-- Response-body processing of `TuyaApi::new` (src/lib.rs:345-359) after
the ISO-8859-1 text decoding: `serde_json::from_str::<LoginResponse>` (a
failure here is `Error::Deserializing`) followed by `to_result`. -/
def TuyaApi.login_decode (body : Json) : Except ApiError TuyaApiTokens :=
  match LoginResponse.decode body with
  | none => .error loginDeserFailure
  | some r => r.to_result

/-- Rust method `AccessToken::write_to` (src/lib.rs:188-190):
`writer.write_all(self.0.as_bytes())` writes the token string verbatim with
no framing.  The byte stream is modelled at Unicode-scalar granularity: a
Rust `String` is a sequence of Unicode scalar values stored in UTF-8, and
`as_bytes` / `read_to_string` are the UTF-8 encode/decode pair, a bijection
between strings and their encodings. -/
def AccessToken.write_to (t : AccessToken) : List Char :=
  t.val.data

/-- Rust associated function `AccessToken::read_from` (src/lib.rs:191-195):
read the whole stream into a string and wrap it. -/
def AccessToken.read_from (stream : List Char) : AccessToken :=
  ⟨String.mk stream⟩

/-! ## Concrete wire bodies and small helpers used in the statements -/

/-- Fields of a fully populated light `data` object. -/
def lightDataJson : Json := .obj [("brightness", .str "100"), ("color_mode", .str "white"),
  ("online", .bool true), ("state", .str "true"), ("color_temp", .num 4000)]

/-- A well-formed discovery record with `dev_type` `light`. -/
def lightRecordJson : Json := .obj [("dev_type", .str "light"), ("data", lightDataJson),
  ("name", .str "Lamp"), ("id", .str "dev1")]

/-- A discovery record carrying the non-light discriminator `curtain`. -/
def curtainRecordJson : Json := .obj [("dev_type", .str "curtain"),
  ("name", .str "Curtain"), ("id", .str "dev2")]

/-- A discovery record carrying the literal discriminator `Unknown`. -/
def unknownRecordJson : Json := .obj [("dev_type", .str "Unknown")]

/-- A light record whose `data` object is missing the `color_temp` field. -/
def badLightRecordJson : Json := .obj [("dev_type", .str "light"),
  ("data", .obj [("brightness", .str "100"), ("color_mode", .str "white"),
    ("online", .bool true), ("state", .str "true")]),
  ("name", .str "Lamp"), ("id", .str "dev1")]

/-- A discovery response body holding the given device records. -/
def mkScanBody (records : List Json) : Json :=
  .obj [("payload", .obj [("devices", .arr records)])]

/-- An acknowledgement response body whose header carries the given code. -/
def mkAckBody (c : String) : Json :=
  .obj [("header", .obj [("code", .str c)])]

/-- Whether an acknowledgement outcome is an `Api` error. -/
def isApiAck : Except ApiError Unit → Bool
  | .error (.Api _) => true
  | _ => false

/-- Whether a scan outcome is a `Deserializing` error. -/
def isDeserializingScan : Except ApiError (List Light) → Bool
  | .error (.Deserializing _) => true
  | _ => false

/-- The fields of the top-level object of a JSON value. -/
def Json.objFields : Json → List (String × Json)
  | .obj fs => fs
  | _ => []

/-- The fields of the `payload` object of a wire request. -/
def payloadFields (j : Json) : List (String × Json) :=
  match getField j.objFields "payload" with
  | some (.obj fs) => fs
  | _ => []

/-! ## Bridge lemmas: what the binary64 pipelines compute, as closed forms -/

set_option maxRecDepth 40000 in
/-- The brightness pipeline computes the exact truncated quotient: on all
256 `u8` inputs, the binary64 rounding never crosses an integer boundary. -/
theorem brightness_eq_floor : ∀ b < 256, set_brightness_convert b = b * 100 / 255 := by
  decide

set_option maxRecDepth 40000 in
theorem temp_f64_eq_chunk1 : ∀ d < 1000, temp_f64 d = tempTable d := by
  decide

set_option maxRecDepth 40000 in
theorem temp_f64_eq_chunk2 : ∀ d < 1000, temp_f64 (1000 + d) = tempTable (1000 + d) := by
  decide

set_option maxRecDepth 40000 in
theorem temp_f64_eq_chunk3 : ∀ d < 1000, temp_f64 (2000 + d) = tempTable (2000 + d) := by
  decide

set_option maxRecDepth 40000 in
theorem temp_f64_eq_chunk4 : ∀ d < 801, temp_f64 (3000 + d) = tempTable (3000 + d) := by
  decide

/-- The temperature pipeline agrees with the `tempTable` closed form on the
whole clamped offset range. -/
theorem temp_f64_eq (d : Nat) (hd : d ≤ 3800) : temp_f64 d = tempTable d := by
  by_cases h1 : d < 1000
  · exact temp_f64_eq_chunk1 d h1
  · by_cases h2 : d < 2000
    · obtain ⟨e, rfl⟩ : ∃ e, d = 1000 + e := ⟨d - 1000, by omega⟩
      exact temp_f64_eq_chunk2 e (by omega)
    · by_cases h3 : d < 3000
      · obtain ⟨e, rfl⟩ : ∃ e, d = 2000 + e := ⟨d - 2000, by omega⟩
        exact temp_f64_eq_chunk3 e (by omega)
      · obtain ⟨e, rfl⟩ : ∃ e, d = 3000 + e := ⟨d - 3000, by omega⟩
        exact temp_f64_eq_chunk4 e (by omega)

/-- The closed-form table is monotone: the exact quotient grows by at least
two per step, so the isolated one-unit dips cannot break monotonicity. -/
theorem tempTable_mono : Monotone tempTable := by
  apply monotone_nat_of_le_succ
  intro d
  unfold tempTable
  have hstep : d * 9000 / 3800 + 2 ≤ (d + 1) * 9000 / 3800 := by
    have h1 : d * 9000 + 2 * 3800 ≤ (d + 1) * 9000 := by ring_nf; omega
    have h2 : (d * 9000 + 2 * 3800) / 3800 = d * 9000 / 3800 + 2 :=
      Nat.add_mul_div_right _ _ (by omega)
    calc d * 9000 / 3800 + 2 = (d * 9000 + 2 * 3800) / 3800 := h2.symm
      _ ≤ (d + 1) * 9000 / 3800 := Nat.div_le_div_right h1
  split_ifs <;> omega

/-- For `k ≥ 2700` the conversion succeeds and computes the table value of
the clamped offset. -/
theorem set_color_temperature_convert_eq (m : Nat) (hm : 2700 ≤ m) :
    set_color_temperature_convert m = some (tempTable (min m 6500 - 2700)) := by
  have hmin : 2700 ≤ min m 6500 := le_min hm (by omega)
  have hd : min m 6500 - 2700 ≤ 3800 := by
    have := Nat.min_le_right m 6500
    omega
  unfold set_color_temperature_convert u32_sub?
  rw [if_pos hmin]
  show some (temp_f64 (min m 6500 - 2700)) = some (tempTable (min m 6500 - 2700))
  rw [temp_f64_eq _ hd]

/-! ## Helper lemmas for the decoder theorems -/

theorem option_isSome_bind (o : Option α) (f : α → Option β) :
    (o >>= f).isSome ↔ ∃ a, o = some a ∧ (f a).isSome := by
  cases o <;> simp

theorem asString_bind_eq_some (o : Option Json) (s : String) :
    (o >>= asString) = some s ↔ o = some (.str s) := by
  cases o with
  | none => simp
  | some v => cases v <;> simp [asString]

theorem asBool_bind_eq_some (o : Option Json) (b : Bool) :
    (o >>= asBool) = some b ↔ o = some (.bool b) := by
  cases o with
  | none => simp
  | some v => cases v <;> simp [asBool]

theorem asI32_bind_eq_some (o : Option Json) (n : Int) :
    (o >>= asI32) = some n ↔
      o = some (.num n) ∧ -2147483648 ≤ n ∧ n < 2147483648 := by
  cases o with
  | none => simp
  | some v =>
      cases v <;> simp [asI32]
      rename_i m
      constructor
      · rintro ⟨hb, rfl⟩; exact ⟨rfl, hb⟩
      · rintro ⟨rfl, hb⟩; exact ⟨hb, rfl⟩

/-- A failing element fails the whole vector. -/
theorem decodeVec_eq_none {f : Json → Option α} (items : List Json) (x : Json)
    (hx : x ∈ items) (hfx : f x = none) : decodeVec f items = none := by
  induction items with
  | nil => cases hx
  | cons y ys ih =>
      rcases List.mem_cons.mp hx with rfl | hmem
      · simp [decodeVec, hfx]
      · cases hfy : f y with
        | none => simp [decodeVec, hfy]
        | some a => simp [decodeVec, hfy, ih hmem]

/-! ## The claims -/

/-- C1: the claim says a discovery record with any non-light `dev_type` is
silently dropped and never causes an error.  In the code the `Unknown`
variant of `ScanDevice` lacks `serde(other)`, so only the literal tag
string `Unknown` selects it: a record tagged `curtain` is an
unknown-variant deserialization error that fails the whole scan, while a
record tagged exactly `Unknown` is decoded and then dropped by the filter,
preserving the light's `id` and `name`.  The spec states the intended
forward-compatible catch-all that the code's own `Unknown` variant and its
filter arm were evidently written for. -/
theorem C1_scan_nonlight_devtype_fails :
    TuyaApi.scan_decode (mkScanBody [lightRecordJson, curtainRecordJson]) =
        .error recvJsonFailure ∧
    TuyaApi.scan_decode (mkScanBody [lightRecordJson, unknownRecordJson]) =
        .ok [⟨"Lamp", ⟨"dev1"⟩⟩] :=
  ⟨rfl, rfl⟩

/-- C2 counterexample: an acknowledgement whose header code is the
unrecognized string `FAILURE` does not produce an `Api` error as the claim
states; deserialization of `ResponseType` fails and the call surfaces the
transport-wrapped error instead. -/
theorem C2_counterexample_unrecognized_code_not_api :
    TuyaApi.send_state_command_decode (mkAckBody "FAILURE") = .error recvJsonFailure ∧
    isApiAck (TuyaApi.send_state_command_decode (mkAckBody "FAILURE")) = false :=
  ⟨rfl, rfl⟩

/-- C2 (amended): for an acknowledgement whose header object carries
`code = c` (plus any extra header fields), code `SUCCESS` yields `Ok(())`;
code `TargetOffline`, the only other recognized variant, yields an `Api`
error whose message is exactly `TargetOffline` (the code's textual
representation); any other code string fails `ResponseType`
deserialization inside `recv_json` and yields the `Http`-wrapped error,
not an `Api` error. -/
theorem C2_ack_code_trichotomy (c : String) (extra : List (String × Json)) :
    TuyaApi.send_state_command_decode (.obj [("header", .obj (("code", .str c) :: extra))]) =
      (if c = "SUCCESS" then .ok ()
       else if c = "TargetOffline" then .error (.Api "TargetOffline")
       else .error recvJsonFailure) := by
  by_cases h1 : c = "SUCCESS" <;> by_cases h2 : c = "TargetOffline" <;>
    simp [TuyaApi.send_state_command_decode, SetStateResponse.decode, ResponseType.decode,
      getField, h1, h2, ResponseType.debugFmt]

set_option maxRecDepth 40000 in
/-- C3 counterexample: the colour-temperature conversion is not total below
2700 Kelvin; at input 2699 the `u32` subtraction
`temperature.min(6500) - 2700` underflows, a Rust program error (an abort
under overflow checks), modelled as `none`. -/
theorem C3_counterexample_below_2700_underflows :
    set_color_temperature_convert 2699 = none := by
  decide

/-- C3 (amended): the brightness conversion is defined and bounded by 100 on
its whole `u8` domain, and the colour-temperature conversion evaluates
without error exactly for inputs of at least 2700 Kelvin; below 2700 the
`u32` subtraction underflows. -/
theorem C3_converters_totality_domain :
    (∀ b, b ≤ 255 → set_brightness_convert b ≤ 100) ∧
    (∀ k, (set_color_temperature_convert k).isSome ↔ 2700 ≤ k) := by
  constructor
  · intro b hb
    rw [brightness_eq_floor b (by omega)]
    calc b * 100 / 255 ≤ 255 * 100 / 255 := Nat.div_le_div_right (by omega)
      _ = 100 := by norm_num
  · intro k
    unfold set_color_temperature_convert u32_sub?
    split_ifs with h
    · simp only [Option.isSome_some, true_iff]
      exact le_trans h (Nat.min_le_left k 6500)
    · simp only [Option.isSome_none, Bool.false_eq_true, false_iff, not_le]
      by_contra hk
      push_neg at hk
      exact h (le_min hk (by omega))

/-- C3 witness: the amended theorem applied at brightness 128 and at 4000
Kelvin. -/
theorem C3_converters_totality_domain_witness :
    set_brightness_convert 128 ≤ 100 ∧ (set_color_temperature_convert 4000).isSome :=
  ⟨C3_converters_totality_domain.1 128 (by omega),
   (C3_converters_totality_domain.2 4000).mpr (by omega)⟩

/-- C4: login-body decoding tries the success shape first: a body matching
`TuyaApiTokens` yields those tokens; a body not matching the success shape
but carrying string fields `errorMsg` and `responseStatus` yields an `Api`
error with that `errorMsg` (never a `Deserializing` error); a body matching
neither shape yields the `Deserializing` error. -/
theorem C4_login_decoder_discrimination (j : Json) :
    (∀ t, TuyaApiTokens.decode j = some t → TuyaApi.login_decode j = .ok t) ∧
    (∀ m s, TuyaApiTokens.decode j = none → LoginResponse.decodeErrorVariant j = some (m, s) →
        TuyaApi.login_decode j = .error (.Api m)) ∧
    (TuyaApiTokens.decode j = none → LoginResponse.decodeErrorVariant j = none →
        TuyaApi.login_decode j = .error loginDeserFailure) := by
  refine ⟨fun t ht => ?_, fun m s hn he => ?_, fun hn he => ?_⟩ <;>
    simp [TuyaApi.login_decode, LoginResponse.decode, LoginResponse.to_result, *]

/-- C4 witness: the theorem applied to a token body, an error body and a
body matching neither shape. -/
theorem C4_login_decoder_discrimination_witness :
    TuyaApi.login_decode (.obj [("access_token", .str "tok")]) =
        .ok ⟨"tok", none, none, none⟩ ∧
    TuyaApi.login_decode (.obj [("errorMsg", .str "bad password"),
        ("responseStatus", .str "ERROR")]) = .error (.Api "bad password") ∧
    TuyaApi.login_decode (.str "garbage") = .error loginDeserFailure :=
  ⟨(C4_login_decoder_discrimination (.obj [("access_token", .str "tok")])).1 _ rfl,
   (C4_login_decoder_discrimination (.obj [("errorMsg", .str "bad password"),
      ("responseStatus", .str "ERROR")])).2.1 "bad password" "ERROR" rfl rfl,
   (C4_login_decoder_discrimination (.str "garbage")).2.2 rfl rfl⟩

set_option maxRecDepth 40000 in
/-- C5 counterexample: the conversion truncates rather than rounds: at
input 254 the code produces 99 while the claimed formula
`round(254 / 255 * 100)` gives 100. -/
theorem C5_counterexample_truncates_not_rounds :
    set_brightness_convert 254 = 99 ∧ spec_round_brightness 254 = 100 := by
  constructor
  · decide
  · decide

/-- C5 (amended): for every `u8` input the brightness conversion equals the
truncated quotient `⌊b * 100 / 255⌋` (truncation, not rounding, is the only
correction the counterexample forces); the result lies in `[0, 100]`, is
monotone non-decreasing, and maps 0 to 0, 255 to 100 and 128 to 50. -/
theorem C5_brightness_conversion_props : ∀ b, b ≤ 255 →
    set_brightness_convert b = b * 100 / 255 ∧
    set_brightness_convert b ≤ 100 ∧
    (∀ b2, b ≤ b2 → b2 ≤ 255 → set_brightness_convert b ≤ set_brightness_convert b2) ∧
    set_brightness_convert 0 = 0 ∧
    set_brightness_convert 255 = 100 ∧
    set_brightness_convert 128 = 50 := by
  intro b hb
  refine ⟨brightness_eq_floor b (by omega), ?_, ?_, ?_, ?_, ?_⟩
  · rw [brightness_eq_floor b (by omega)]
    calc b * 100 / 255 ≤ 255 * 100 / 255 := Nat.div_le_div_right (by omega)
      _ = 100 := by norm_num
  · intro b2 hb2 hb2'
    rw [brightness_eq_floor b (by omega), brightness_eq_floor b2 (by omega)]
    exact Nat.div_le_div_right (by omega)
  · rw [brightness_eq_floor 0 (by omega)]
  · rw [brightness_eq_floor 255 (by omega)]
  · rw [brightness_eq_floor 128 (by omega)]

/-- C5 witness: the amended theorem applied at input 128. -/
theorem C5_brightness_conversion_props_witness :
    set_brightness_convert 128 = 128 * 100 / 255 ∧ set_brightness_convert 128 = 50 :=
  ⟨(C5_brightness_conversion_props 128 (by omega)).1,
   (C5_brightness_conversion_props 128 (by omega)).2.2.2.2.2⟩

set_option maxRecDepth 40000 in
/-- C6 counterexample: at 4847 Kelvin the code produces 6084 while the
claimed exactly-truncated formula gives 6085: the binary64 rounding of
`2147 / 3800` lands just below the exact value and the subsequent
truncation loses one unit. -/
theorem C6_counterexample_f64_truncation_dip :
    set_color_temperature_convert 4847 = some 6084 ∧ spec_temp_formula 4847 = 6085 := by
  constructor
  · decide
  · decide

/-- C6 (amended): for every input of at least 2700 Kelvin the conversion
equals the claimed truncated formula except at 4847 and 5322 Kelvin, where
the binary64 evaluation gives one unit less; it maps 2700 to 1000 and 6500
to 10000, maps every input above 6500 to the value at 6500, and is
monotone non-decreasing. -/
theorem C6_temperature_conversion_props : ∀ k, 2700 ≤ k →
    set_color_temperature_convert k =
        some (spec_temp_formula k - (if k = 4847 ∨ k = 5322 then 1 else 0)) ∧
    set_color_temperature_convert 2700 = some 1000 ∧
    set_color_temperature_convert 6500 = some 10000 ∧
    (6500 ≤ k → set_color_temperature_convert k = set_color_temperature_convert 6500) ∧
    (∀ k2, k ≤ k2 →
      (set_color_temperature_convert k).getD 0 ≤ (set_color_temperature_convert k2).getD 0) := by
  intro k hk
  refine ⟨?_, ?_, ?_, ?_, ?_⟩
  · rw [set_color_temperature_convert_eq k hk]
    unfold tempTable spec_temp_formula
    rw [Option.some_inj]
    rcases Nat.le_total k 6500 with h | h
    · rw [Nat.min_eq_left h]
      split_ifs <;> omega
    · rw [Nat.min_eq_right h]
      split_ifs <;> omega
  · rw [set_color_temperature_convert_eq 2700 le_rfl]; rfl
  · rw [set_color_temperature_convert_eq 6500 (by omega)]; rfl
  · intro h
    rw [set_color_temperature_convert_eq k hk,
      set_color_temperature_convert_eq 6500 (by omega), Nat.min_eq_right h, Nat.min_self]
  · intro k2 hk2
    rw [set_color_temperature_convert_eq k hk,
      set_color_temperature_convert_eq k2 (le_trans hk hk2)]
    simp only [Option.getD_some]
    exact tempTable_mono (Nat.sub_le_sub_right (min_le_min hk2 le_rfl) 2700)

/-- C6 witness: the amended theorem applied at 2700 Kelvin. -/
theorem C6_temperature_conversion_props_witness :
    set_color_temperature_convert 2700 = some 1000 :=
  (C6_temperature_conversion_props 2700 le_rfl).2.1

/-- C7: encoding `TurnOnOff` with state `On` yields a request whose header
carries `payloadVersion` 1, namespace `control` and name `turnOnOff`, and
whose payload carries `accessToken` equal to the session token, `devId`
equal to the device identifier and `value` equal to the string `1`;
moreover encoding is total: every command variant serializes to an object
with a header object and a payload object. -/
theorem C7_encoder_turn_on_off_fields :
    (∀ i tokv : String,
      getField (TuyaRequest.serialize ⟨.TurnOnOff ⟨i⟩ .On, ⟨tokv⟩⟩).objFields "header" =
        some (.obj [("payloadVersion", .num 1), ("namespace", .str "control"),
          ("name", .str "turnOnOff")]) ∧
      getField (payloadFields (TuyaRequest.serialize ⟨.TurnOnOff ⟨i⟩ .On, ⟨tokv⟩⟩))
          "accessToken" = some (.str tokv) ∧
      getField (payloadFields (TuyaRequest.serialize ⟨.TurnOnOff ⟨i⟩ .On, ⟨tokv⟩⟩))
          "devId" = some (.str i) ∧
      getField (payloadFields (TuyaRequest.serialize ⟨.TurnOnOff ⟨i⟩ .On, ⟨tokv⟩⟩))
          "value" = some (.str "1")) ∧
    (∀ (cmd : TuyaCommand) (tok : AccessToken), ∃ hfs pfs,
      TuyaRequest.serialize ⟨cmd, tok⟩ = .obj [("header", .obj hfs), ("payload", .obj pfs)]) := by
  constructor
  · intro i tokv
    exact ⟨rfl, rfl, rfl, rfl⟩
  · intro cmd tok
    cases cmd <;> exact ⟨_, _, rfl⟩

/-- C8 counterexample: non-emptiness of the access token is not enforced:
a session seeded with the empty token encodes requests whose `accessToken`
field is the empty string. -/
theorem C8_counterexample_empty_token_accepted :
    getField (payloadFields (TuyaApi.build_request (TuyaApi.from_token ⟨""⟩) .Discovery))
        "accessToken" = some (.str "") ∧
    ("" : String).length = 0 :=
  ⟨rfl, rfl⟩

/-- C8 (amended): for every session, however constructed, and every command,
the outbound request's payload carries an `accessToken` field equal to the
session's stored access token; the encoder structurally requires a token
(`TuyaRequest` owns an `AccessToken` field); but the token string is not
checked for emptiness anywhere, so an empty token is carried verbatim. -/
theorem C8_request_carries_session_token (a : TuyaApi) (cmd : TuyaCommand) :
    getField (payloadFields (TuyaApi.build_request a cmd)) "accessToken" =
      some (.str a.tokens.access_token) := by
  cases cmd <;> rfl

/-- C9: writing a token and reading the written stream back yields an equal
token (the stream is the string verbatim, no framing), and a session seeded
from the read-back token dumps the same token string. -/
theorem C9_token_write_read_roundtrip (s : String) :
    AccessToken.read_from (AccessToken.write_to ⟨s⟩) = ⟨s⟩ ∧
    (TuyaApi.from_token (AccessToken.read_from (AccessToken.write_to ⟨s⟩))).dump_token.val
      = s := by
  obtain ⟨d⟩ := s
  exact ⟨rfl, rfl⟩

/-- C10 counterexample: a discovery response whose single light record lacks
the `color_temp` field fails the whole scan, but the surfaced error is the
`Http`-wrapped one (deserialization happens inside `recv_json`), not the
`Deserializing` kind the claim names. -/
theorem C10_counterexample_error_kind_is_http :
    TuyaApi.scan_decode (mkScanBody [badLightRecordJson]) = .error recvJsonFailure ∧
    isDeserializingScan (TuyaApi.scan_decode (mkScanBody [badLightRecordJson])) = false :=
  ⟨rfl, rfl⟩

/-- C10 (amended): a light record's `data` object decodes exactly when it
carries a string `brightness`, a string `color_mode`, a boolean `online`, a
string `state` and an in-range integer `color_temp`; and any record of a
discovery response that fails to decode fails the whole scan, the error
surfacing as the `Http`-wrapped kind (decoding happens inside the HTTP
client's `recv_json`), not as `Deserializing`. -/
theorem C10_light_record_field_requirements :
    (∀ fs : List (String × Json), (LightResponse.decode (.obj fs)).isSome ↔
      ((∃ s, getField fs "brightness" = some (.str s)) ∧
       (∃ s, getField fs "color_mode" = some (.str s)) ∧
       (∃ b, getField fs "online" = some (.bool b)) ∧
       (∃ s, getField fs "state" = some (.str s)) ∧
       (∃ n, getField fs "color_temp" = some (.num n) ∧
          -2147483648 ≤ n ∧ n < 2147483648))) ∧
    (∀ (items : List Json) (x : Json), x ∈ items → ScanDevice.decode x = none →
      TuyaApi.scan_decode (mkScanBody items) = .error recvJsonFailure) := by
  constructor
  · intro fs
    simp only [LightResponse.decode, option_isSome_bind, asString_bind_eq_some,
      asBool_bind_eq_some, asI32_bind_eq_some, Option.pure_def, Option.isSome_some, and_true,
      exists_and_right]
  · intro items x hx hdx
    simp [TuyaApi.scan_decode, ScanResponse.decode, ScanDevices.decode, mkScanBody, getField,
      decodeVec_eq_none items x hx hdx]

/-- C10 witness: the field characterization applied to a complete `data`
object, and the propagation applied to the response with the incomplete
light record. -/
theorem C10_light_record_field_requirements_witness :
    (LightResponse.decode (.obj [("brightness", .str "100"), ("color_mode", .str "white"),
      ("online", .bool true), ("state", .str "true"), ("color_temp", .num 4000)])).isSome ∧
    TuyaApi.scan_decode (mkScanBody [badLightRecordJson]) = .error recvJsonFailure :=
  ⟨(C10_light_record_field_requirements.1 [("brightness", .str "100"),
      ("color_mode", .str "white"), ("online", .bool true), ("state", .str "true"),
      ("color_temp", .num 4000)]).mpr
    ⟨⟨"100", rfl⟩, ⟨"white", rfl⟩, ⟨true, rfl⟩, ⟨"true", rfl⟩, ⟨4000, rfl, by omega, by omega⟩⟩,
   C10_light_record_field_requirements.2 [badLightRecordJson] badLightRecordJson
    (List.mem_singleton.mpr rfl) rfl⟩
